import Mathlib

/-
Shallow embedding of a USB HID game-controller to keyboard emulator.

The program holds a persistent State of three byte bitmasks (buttons, extra,
dpad). On each poll it decodes an 8-byte report into an Input, diffs each
group against the stored bitmask with XOR, and injects one key-down or key-up
per changed mapped bit through an external key-injection context.

Bytes are modelled as Nat; every value fed in is below 256 and the bitwise
operations used (XOR, AND, OR) never leave that range, so no explicit
reduction modulo 256 is needed. The fallible key-injection context is
modelled as an oracle Ctx deciding, per event, whether the injection call
succeeds; functions that may fail return Option, with none standing for the
propagated tfc error, and successful results carry the ordered list of key
events that were injected.
-/

/-- Virtual keyboard keys used by the fixed mapping tables. -/
inductive Key where
  | P | O | I | U | Y | T | R | E
  | L | K | J | H | G
  | W | S | A | D
deriving DecidableEq, Repr

/-- One synthetic keyboard action: key identity and direction (down or up). -/
structure Event where
  key : Key
  down : Bool
deriving DecidableEq, Repr

/-- Key-injection collaborator: decides whether a given injection call succeeds. -/
def Ctx : Type := Event → Bool

/-- Injection context in which every call succeeds. -/
def ctxOk : Ctx := fun _ => true

/-- Injection context that fails exactly on key L (the key mapped to Extra Minus). -/
def ctxNoL : Ctx := fun e => decide (e.key ≠ Key.L)

def Buttons.Y : Nat := 0x01
def Buttons.B : Nat := 0x02
def Buttons.A : Nat := 0x04
def Buttons.X : Nat := 0x08
def Buttons.L : Nat := 0x10
def Buttons.R : Nat := 0x20
def Buttons.ZL : Nat := 0x40
def Buttons.ZR : Nat := 0x80

def Extra.Minus : Nat := 0x01
def Extra.Plus : Nat := 0x02
def Extra.LSB : Nat := 0x04
def Extra.RSB : Nat := 0x08
def Extra.Home : Nat := 0x10

def Dpad.Off : Nat := 0x00
def Dpad.U : Nat := 0x01
def Dpad.R : Nat := 0x02
def Dpad.D : Nat := 0x04
def Dpad.L : Nat := 0x08
def Dpad.UR : Nat := 0x03
def Dpad.DR : Nat := 0x06
def Dpad.UL : Nat := 0x09
def Dpad.DL : Nat := 0x0C

/-- Decoded view of one 8-byte HID report. -/
structure Input where
  buttons : Nat
  extra : Nat
  dpad : Nat
  lstick1 : Nat
  lstick2 : Nat
  rstick1 : Nat
  rstick2 : Nat
  unused : Nat
deriving DecidableEq, Repr

/-- Report Decoder: fields at fixed byte offsets 0 to 7. -/
def Input.new (data : Fin 8 → Nat) : Input :=
  { buttons := data 0, extra := data 1, dpad := data 2,
    lstick1 := data 3, lstick2 := data 4, rstick1 := data 5,
    rstick2 := data 6, unused := data 7 }

/-- Neutral snapshot substituted when a device read fails: nothing pressed,
dpad at the off code 15, sticks at midpoint. -/
def Input.default : Input :=
  { buttons := 0, extra := 0, dpad := 15,
    lstick1 := 128, lstick2 := 128, rstick1 := 128, rstick2 := 128,
    unused := 0 }

/-- Persistent logical state of the Controller: last stored bitmask per group. -/
structure State where
  buttons : Nat
  extra : Nat
  dpad : Nat
deriving DecidableEq, Repr

/-- Initial state: all groups zero. -/
def State.new : State := { buttons := 0, extra := 0, dpad := 0 }

/-- State after a forced reset: all three bitmasks at the all-ones sentinel 255. -/
def clear_state : State := { buttons := 255, extra := 255, dpad := 255 }

/-- Transition check for one mapped bit. If the bit changed (diff AND button
nonzero) it injects key-down when the new value is nonzero, key-up otherwise,
and returns the new value of the bit; an unchanged bit injects nothing and
returns zero. A failed injection aborts with none. -/
def Controller.check_key (ctx : Ctx) (input diff button : Nat) (k : Key) :
    Option (Nat × List Event) :=
  if diff &&& button ≠ 0 then
    let d := input &&& button
    let ev : Event := { key := k, down := decide (d ≠ 0) }
    if ctx ev then some (d, [ev]) else none
  else
    some (0, [])

/-- Dpad normalizer: maps the 8-direction hat code to a 4-bit direction mask,
every other byte to the empty mask. -/
def Controller.convert_dpad (dpad : Nat) : Nat :=
  match dpad with
  | 0 => Dpad.U
  | 1 => Dpad.UR
  | 2 => Dpad.R
  | 3 => Dpad.DR
  | 4 => Dpad.D
  | 5 => Dpad.DL
  | 6 => Dpad.L
  | 7 => Dpad.UL
  | _ => Dpad.Off

/-- Buttons group handler: diffs the new buttons byte against the stored one
and checks the eight mapped button bits in order, accumulating the returned
bit values and the injected events. -/
def Controller.handle_buttons (ctx : Ctx) (st : State) (buttons : Nat) :
    Option (Nat × List Event) := do
  let diff := buttons ^^^ st.buttons
  let r1 ← Controller.check_key ctx buttons diff Buttons.Y Key.P
  let r2 ← Controller.check_key ctx buttons diff Buttons.B Key.O
  let r3 ← Controller.check_key ctx buttons diff Buttons.A Key.I
  let r4 ← Controller.check_key ctx buttons diff Buttons.X Key.U
  let r5 ← Controller.check_key ctx buttons diff Buttons.L Key.Y
  let r6 ← Controller.check_key ctx buttons diff Buttons.R Key.T
  let r7 ← Controller.check_key ctx buttons diff Buttons.ZL Key.R
  let r8 ← Controller.check_key ctx buttons diff Buttons.ZR Key.E
  pure (r1.1 ||| r2.1 ||| r3.1 ||| r4.1 ||| r5.1 ||| r6.1 ||| r7.1 ||| r8.1,
        r1.2 ++ r2.2 ++ r3.2 ++ r4.2 ++ r5.2 ++ r6.2 ++ r7.2 ++ r8.2)

/-- Extra group handler: same scheme over the five mapped extra bits. -/
def Controller.handle_extra (ctx : Ctx) (st : State) (extra : Nat) :
    Option (Nat × List Event) := do
  let diff := extra ^^^ st.extra
  let r1 ← Controller.check_key ctx extra diff Extra.Minus Key.L
  let r2 ← Controller.check_key ctx extra diff Extra.Plus Key.K
  let r3 ← Controller.check_key ctx extra diff Extra.LSB Key.J
  let r4 ← Controller.check_key ctx extra diff Extra.RSB Key.H
  let r5 ← Controller.check_key ctx extra diff Extra.Home Key.G
  pure (r1.1 ||| r2.1 ||| r3.1 ||| r4.1 ||| r5.1,
        r1.2 ++ r2.2 ++ r3.2 ++ r4.2 ++ r5.2)

/-- Dpad group handler: normalizes the hat code first, then diffs the cleaned
mask against the stored dpad bitmask over the four direction bits. -/
def Controller.handle_dpad (ctx : Ctx) (st : State) (dpad : Nat) :
    Option (Nat × List Event) := do
  let cleaned := Controller.convert_dpad dpad
  let diff := cleaned ^^^ st.dpad
  let r1 ← Controller.check_key ctx cleaned diff Dpad.U Key.W
  let r2 ← Controller.check_key ctx cleaned diff Dpad.D Key.S
  let r3 ← Controller.check_key ctx cleaned diff Dpad.L Key.A
  let r4 ← Controller.check_key ctx cleaned diff Dpad.R Key.D
  pure (r1.1 ||| r2.1 ||| r3.1 ||| r4.1,
        r1.2 ++ r2.2 ++ r3.2 ++ r4.2)

/-- One update: handles the three groups in order, committing each group's
returned bitmask to the state as soon as that group succeeds. A failing group
leaves its own and all later components at their prior values and returns the
error (none); on full success the ordered event list is returned. -/
def Controller.update (ctx : Ctx) (st : State) (inp : Input) :
    State × Option (List Event) :=
  match Controller.handle_buttons ctx st inp.buttons with
  | none => (st, none)
  | some (b, e1) =>
    let st1 : State := { st with buttons := b }
    match Controller.handle_extra ctx st1 inp.extra with
    | none => (st1, none)
    | some (x, e2) =>
      let st2 : State := { st1 with extra := x }
      match Controller.handle_dpad ctx st2 inp.dpad with
      | none => (st2, none)
      | some (d, e3) => ({ st2 with dpad := d }, some (e1 ++ e2 ++ e3))

/-- Body of one poll cycle after the periodic clear: a successful read feeds
the decoded snapshot to update, a failed read feeds the neutral default
snapshot; an update error triggers an immediate forced reset. -/
def poll_body (ctx : Ctx) (r : Option Input) (st : State) : State :=
  match r with
  | some inp =>
    match Controller.update ctx st inp with
    | (st2, some _) => st2
    | (_, none) => clear_state
  | none =>
    match Controller.update ctx st Input.default with
    | (st2, some _) => st2
    | (_, none) => clear_state

/-- One iteration of the poll loop: when the wrapping counter is divisible by
7 the state is force-reset before the read result is processed; the counter
then advances modulo 256. -/
def poll_step (ctx : Ctx) (r : Option Input) (st : State) (i : Nat) : State × Nat :=
  let st0 := if i % 7 = 0 then clear_state else st
  (poll_body ctx r st0, (i + 1) % 256)

/-- Value of the wrapping 8-bit cycle counter checked at iteration n of the
poll loop: it starts at 0 and is incremented with wraparound once per cycle. -/
def counter : Nat → Nat
  | 0 => 0
  | n + 1 => (counter n + 1) % 256

/-- Value of the wrapping counter at iteration n is n modulo 256. -/
theorem counter_mod (n : Nat) : counter n = n % 256 := by
  induction n with
  | zero => rfl
  | succ n ih =>
    simp only [counter, ih]
    omega

/-- Claim C1: the claim says a group handler returns the new bitmask restricted
to the mapped bits, but on prior stored buttons 4 and new buttons 4 the buttons
handler returns 0, although 4 restricted to the mapped buttons mask 255 is 4:
check_key returns 0 for an unchanged bit even when it is held down, so held
bits are dropped from the stored state. -/
theorem C1_handler_drops_held_bit :
    Controller.handle_buttons ctxOk { buttons := 4, extra := 0, dpad := 0 } 4 =
      some (0, []) ∧
    (4 : Nat) &&& 255 = 4 ∧ (0 : Nat) ≠ 4 := by decide

/-- Claim C2: the claim says the second of two updates with the same snapshot
emits no events, but from the reachable stored state with buttons 1 and a
snapshot with buttons byte 1, the first update succeeds with no events yet
stores 0, so the second update with the identical snapshot emits a key-down
for key P. -/
theorem C2_second_update_emits :
    Controller.update ctxOk { buttons := 1, extra := 0, dpad := 0 }
        { buttons := 1, extra := 0, dpad := 15, lstick1 := 128, lstick2 := 128,
          rstick1 := 128, rstick2 := 128, unused := 0 } =
      ({ buttons := 0, extra := 0, dpad := 0 }, some []) ∧
    Controller.update ctxOk { buttons := 0, extra := 0, dpad := 0 }
        { buttons := 1, extra := 0, dpad := 15, lstick1 := 128, lstick2 := 128,
          rstick1 := 128, rstick2 := 128, unused := 0 } =
      ({ buttons := 1, extra := 0, dpad := 0 },
       some [{ key := Key.P, down := true }]) := by decide

/-- Claim C3 counterexample: after a forced reset, the update fed the neutral
default snapshot succeeds and its event list is not empty, so key events are
emitted, contrary to the claim. -/
theorem C3_neutral_after_reset_emits :
    (Controller.update ctxOk clear_state Input.default).2 ≠ some [] ∧
    (Controller.update ctxOk clear_state Input.default).2 ≠ none := by decide

/-- Claim C3 amended: after a forced reset, the update fed the neutral default
snapshot emits exactly one key-up for each of the 17 mapped bits, in table
order, and no key-down, because the all-ones sentinel differs from every
released bit; the centered dpad code still maps to the empty direction mask. -/
theorem C3_neutral_after_reset_all_key_ups :
    Controller.update ctxOk clear_state Input.default =
      (State.new,
       some [{ key := Key.P, down := false }, { key := Key.O, down := false },
             { key := Key.I, down := false }, { key := Key.U, down := false },
             { key := Key.Y, down := false }, { key := Key.T, down := false },
             { key := Key.R, down := false }, { key := Key.E, down := false },
             { key := Key.L, down := false }, { key := Key.K, down := false },
             { key := Key.J, down := false }, { key := Key.H, down := false },
             { key := Key.G, down := false }, { key := Key.W, down := false },
             { key := Key.S, down := false }, { key := Key.A, down := false },
             { key := Key.D, down := false }]) ∧
    Controller.convert_dpad Input.default.dpad = 0 := by decide

/-- Claim C4: for every pair of bitmasks old and new and every bit b, check_key
run with diff equal to old XOR new attempts exactly one key injection for b
iff old XOR new has a bit in common with b, and then returns the new value of
the bit, new AND b, with direction down exactly when that value is nonzero;
an unchanged bit injects nothing and contributes zero. -/
theorem C4_check_key_transition (ctx : Ctx) (old new b : Nat) (k : Key) :
    ((old ^^^ new) &&& b ≠ 0 →
      Controller.check_key ctx new (old ^^^ new) b k =
        if ctx { key := k, down := decide (new &&& b ≠ 0) }
        then some (new &&& b, [{ key := k, down := decide (new &&& b ≠ 0) }])
        else none) ∧
    ((old ^^^ new) &&& b = 0 →
      Controller.check_key ctx new (old ^^^ new) b k = some (0, [])) := by
  constructor
  · intro h
    simp only [Controller.check_key, if_pos h]
  · intro h
    simp only [Controller.check_key, h]
    simp

/-- Claim C4 witness: at old 0, new 1, bit 1 the hypothesis holds and the
changed branch of the theorem applies. -/
theorem C4_check_key_transition_witness :
    Controller.check_key ctxOk 1 (0 ^^^ 1) 1 Key.P =
      if ctxOk { key := Key.P, down := decide ((1 : Nat) &&& 1 ≠ 0) }
      then some ((1 : Nat) &&& 1, [{ key := Key.P, down := decide ((1 : Nat) &&& 1 ≠ 0) }])
      else none :=
  (C4_check_key_transition ctxOk 0 1 1 Key.P).1 (by decide)

/-- Claim C5: dpad normalization is total on all byte inputs and maps the 8
hat codes to the specified direction masks (diagonals as unions of two
adjacent cardinal bits) and every other value to the empty mask. -/
theorem C5_convert_dpad_total :
    Controller.convert_dpad 0 = Dpad.U ∧
    Controller.convert_dpad 1 = (Dpad.U ||| Dpad.R) ∧
    Controller.convert_dpad 2 = Dpad.R ∧
    Controller.convert_dpad 3 = (Dpad.D ||| Dpad.R) ∧
    Controller.convert_dpad 4 = Dpad.D ∧
    Controller.convert_dpad 5 = (Dpad.D ||| Dpad.L) ∧
    Controller.convert_dpad 6 = Dpad.L ∧
    Controller.convert_dpad 7 = (Dpad.U ||| Dpad.L) ∧
    (∀ n : Nat, 7 < n → Controller.convert_dpad n = Dpad.Off) := by
  refine ⟨by decide, by decide, by decide, by decide, by decide, by decide,
          by decide, by decide, ?_⟩
  intro n h
  obtain ⟨m, rfl⟩ : ∃ m, n = m + 8 := ⟨n - 8, by omega⟩
  rfl

/-- Claim C5 witness: the off code 15 satisfies the hypothesis of the final
conjunct and normalizes to the empty mask. -/
theorem C5_convert_dpad_total_witness :
    7 < 15 ∧ Controller.convert_dpad 15 = Dpad.Off :=
  ⟨by decide, C5_convert_dpad_total.2.2.2.2.2.2.2.2 15 (by decide)⟩

/-- Claim C6: the claim says the third update of the scenario emits a key-up
for the key of button bit 4 and then a key-down for the key of bit 2; in the
code the first update from the all-released state emits only key-down I and
stores 4, the second identical update emits nothing but resets the stored
buttons to 0, so the third update emits only key-down O and never the key-up
for I. -/
theorem C6_scenario_missing_key_up :
    Controller.update ctxOk State.new
        { buttons := 4, extra := 0, dpad := 15, lstick1 := 128, lstick2 := 128,
          rstick1 := 128, rstick2 := 128, unused := 0 } =
      ({ buttons := 4, extra := 0, dpad := 0 },
       some [{ key := Key.I, down := true }]) ∧
    Controller.update ctxOk { buttons := 4, extra := 0, dpad := 0 }
        { buttons := 4, extra := 0, dpad := 15, lstick1 := 128, lstick2 := 128,
          rstick1 := 128, rstick2 := 128, unused := 0 } =
      (State.new, some []) ∧
    Controller.update ctxOk State.new
        { buttons := 2, extra := 0, dpad := 15, lstick1 := 128, lstick2 := 128,
          rstick1 := 128, rstick2 := 128, unused := 0 } =
      ({ buttons := 2, extra := 0, dpad := 0 },
       some [{ key := Key.O, down := true }]) := by decide

/-- Claim C7: when a key injection fails in one of the three groups, every
group before the failing one has its returned bitmask committed to the state,
the failing and later groups keep their prior stored values, and update
returns the error. -/
theorem C7_partial_commit (ctx : Ctx) (st : State) (inp : Input) :
    (Controller.handle_buttons ctx st inp.buttons = none →
      Controller.update ctx st inp = (st, none)) ∧
    (∀ b e1, Controller.handle_buttons ctx st inp.buttons = some (b, e1) →
      Controller.handle_extra ctx { st with buttons := b } inp.extra = none →
      Controller.update ctx st inp = ({ st with buttons := b }, none)) ∧
    (∀ b e1 x e2, Controller.handle_buttons ctx st inp.buttons = some (b, e1) →
      Controller.handle_extra ctx { st with buttons := b } inp.extra = some (x, e2) →
      Controller.handle_dpad ctx { st with buttons := b, extra := x } inp.dpad = none →
      Controller.update ctx st inp = ({ st with buttons := b, extra := x }, none)) := by
  refine ⟨?_, ?_, ?_⟩
  · intro h
    simp only [Controller.update, h]
  · intro b e1 h1 h2
    simp only [Controller.update, h1, h2]
  · intro b e1 x e2 h1 h2 h3
    simp only [Controller.update, h1, h2, h3]

/-- Claim C7 witness: with an injection context failing exactly on key L, a
snapshot pressing button Y and extra Minus commits the buttons bitmask 1,
keeps extra and dpad at their prior zeros, and returns the error. -/
theorem C7_partial_commit_witness :
    Controller.update ctxNoL State.new
        { buttons := 1, extra := 1, dpad := 15, lstick1 := 128, lstick2 := 128,
          rstick1 := 128, rstick2 := 128, unused := 0 } =
      ({ buttons := 1, extra := 0, dpad := 0 }, none) :=
  (C7_partial_commit ctxNoL State.new
      { buttons := 1, extra := 1, dpad := 15, lstick1 := 128, lstick2 := 128,
        rstick1 := 128, rstick2 := 128, unused := 0 }).2.1
    1 [{ key := Key.P, down := true }] (by decide) (by decide)

/-- Claim C8: a poll cycle whose device read failed never propagates the read
error and is processed exactly as a cycle that read the neutral default
snapshot: for every injection context, prior state and counter value, the two
poll steps coincide. -/
theorem C8_read_failure_neutral (ctx : Ctx) (st : State) (i : Nat) :
    poll_step ctx none st i = poll_step ctx (some Input.default) st i := rfl

/-- Claim C9 counterexample: iteration 259 is a multiple of 7, yet the counter
condition does not trigger there, because the wrapping 8-bit counter reads 3
at that iteration; so the reset does not occur on every 7th iteration of the
unbounded loop. -/
theorem C9_wrap_breaks_every_seventh :
    259 % 7 = 0 ∧ counter 259 % 7 ≠ 0 := by
  refine ⟨by decide, ?_⟩
  rw [counter_mod]
  decide

/-- Claim C9 amended: the reset condition triggers exactly at iterations whose
wrapping 8-bit counter value is divisible by 7 (not at every 7th iteration
once the counter wraps past 252); at most 7 cycles ever elapse between
consecutive forced resets; and whenever the condition holds, the poll step
processes the read result from the all-ones cleared state, regardless of the
read outcome and of the prior state. -/
theorem C9_periodic_reset :
    (∀ n, counter n % 7 = 0 ↔ (n % 256) % 7 = 0) ∧
    (∀ n, ∃ k, 1 ≤ k ∧ k ≤ 7 ∧ counter (n + k) % 7 = 0) ∧
    (∀ (ctx : Ctx) (r : Option Input) (st : State) (i : Nat), i % 7 = 0 →
      poll_step ctx r st i = (poll_body ctx r clear_state, (i + 1) % 256)) := by
  refine ⟨?_, ?_, ?_⟩
  · intro n
    rw [counter_mod]
  · intro n
    rcases Nat.lt_or_ge (n % 256) 249 with h | h
    · refine ⟨7 - (n % 256) % 7, by omega, by omega, ?_⟩
      rw [counter_mod]
      have h1 : (n + (7 - n % 256 % 7)) % 256 = n % 256 + (7 - n % 256 % 7) := by
        omega
      rw [h1]
      omega
    · refine ⟨256 - n % 256, by omega, by omega, ?_⟩
      rw [counter_mod]
      have h1 : (n + (256 - n % 256)) % 256 = 0 := by
        omega
      rw [h1]
  · intro ctx r st i h
    simp [poll_step, h]

/-- Claim C9 witness: at iteration 7 the trigger equivalence is concrete, and
at counter value 0 the poll step with a failed read processes the cycle from
the cleared all-ones state. -/
theorem C9_periodic_reset_witness :
    (counter 7 % 7 = 0 ↔ (7 % 256) % 7 = 0) ∧
    poll_step ctxOk none State.new 0 = (poll_body ctxOk none clear_state, 1) :=
  ⟨C9_periodic_reset.1 7, C9_periodic_reset.2.2 ctxOk none State.new 0 (by decide)⟩

/-- Claim C10: the stick axis bytes and the unused byte are never read by the
key emulation logic: two snapshots agreeing on the buttons, extra and dpad
bytes produce the same final state and the same event sequence under update,
for every prior state and injection context. -/
theorem C10_sticks_unobservable (ctx : Ctx) (st : State) (a b : Input)
    (h1 : a.buttons = b.buttons) (h2 : a.extra = b.extra) (h3 : a.dpad = b.dpad) :
    Controller.update ctx st a = Controller.update ctx st b := by
  simp only [Controller.update, h1, h2, h3]

/-- Claim C10 witness: two concrete snapshots differing in all four stick
bytes and the unused byte yield identical update results. -/
theorem C10_sticks_unobservable_witness :
    Controller.update ctxOk State.new
        { buttons := 1, extra := 0, dpad := 15, lstick1 := 128, lstick2 := 128,
          rstick1 := 128, rstick2 := 128, unused := 0 } =
      Controller.update ctxOk State.new
        { buttons := 1, extra := 0, dpad := 15, lstick1 := 0, lstick2 := 255,
          rstick1 := 7, rstick2 := 9, unused := 42 } :=
  C10_sticks_unobservable ctxOk State.new _ _ rfl rfl rfl
